import Mathlib

/-!
Shallow embedding of the NutriBot.ai chat system: a browser chat client
(`script.js`, here `Client`) and an Express proxy (`server.js`, here
`Server`).  The client keeps an in-memory `chatHistory` of turns, sends it
to the proxy through a retry-with-exponential-backoff fetch wrapper, and
appends the model reply; the proxy validates the body, forwards the history
to the upstream generative-AI provider, and normalises the provider
response into `{text, sources}`.
-/

namespace NutriBot

/-- A source/citation record as the proxy builds it before filtering:
`{ uri: attribution.web?.uri, title: attribution.web?.title }`, either
field possibly `undefined` (modelled as `none`). -/
structure SourceRaw where
  uri : Option String
  title : Option String
deriving Repr, DecidableEq

namespace Client

/-- `MAX_RETRIES = 5` from script.js. -/
def MAX_RETRIES : Nat := 5

/-- The outcome of one `fetch` attempt, as the retry wrapper observes it:
a transport error (fetch rejects), a response with `!response.ok`
(carrying its status), a response whose `response.json()` throws, or a
successfully parsed payload. -/
inductive AttemptOutcome (α : Type) where
  | transportError
  | httpError (status : Nat)
  | okBadJson
  | okJson (payload : α)
deriving Repr, DecidableEq

/-- The error thrown out of the `try` block of `fetchWithRetry` for a
failing attempt. -/
inductive FetchError where
  | transport
  | http (status : Nat)
  | badJson
deriving Repr, DecidableEq

/-- What one pass through the `try` block of `fetchWithRetry` produces:
everything up to and including `await response.json()` runs inside the
`try`, so a JSON-parse failure is a thrown error like the others. -/
def attemptResult {α : Type} : AttemptOutcome α → Except FetchError α
  | .transportError => .error .transport
  | .httpError s => .error (.http s)
  | .okBadJson => .error .badJson
  | .okJson v => .ok v

/-- Whether an attempt outcome makes the `try` block throw. -/
def isFailure {α : Type} : AttemptOutcome α → Bool
  | .okJson _ => false
  | _ => true

/-- The observable result of a whole `fetchWithRetry` call: how many
attempts were made, the backoff delays (in ms) awaited between attempts,
and the final returned payload or thrown error. -/
structure RetryResult (α : Type) where
  attempts : Nat
  delaysMs : List Nat
  result : Except FetchError α
deriving Repr

/-- `fetchWithRetry(url, options, retries)` from script.js, over an oracle
giving the outcome of the attempt made at each value of the `retries`
counter.  On a failure with `retries < MAX_RETRIES` it waits
`2^retries * 1000` ms and recurses with `retries + 1`; otherwise it
rethrows the error of the failed attempt. -/
def fetchWithRetry {α : Type} (oracle : Nat → AttemptOutcome α)
    (retries : Nat) : RetryResult α :=
  match attemptResult (oracle retries) with
  | .ok v => ⟨1, [], .ok v⟩
  | .error e =>
    if h : retries < MAX_RETRIES then
      let delay := 2 ^ retries * 1000
      let rest := fetchWithRetry oracle (retries + 1)
      ⟨rest.attempts + 1, delay :: rest.delaysMs, rest.result⟩
    else
      ⟨1, [], .error e⟩
termination_by MAX_RETRIES + 1 - retries
decreasing_by simp [MAX_RETRIES] at *; omega

/-- JavaScript `String.prototype.trim`: strip leading and trailing
whitespace (Lean's own `String.trim` is equivalent but does not reduce in
the kernel, so the stripping is spelled out over the character list). -/
def jsTrim (s : String) : String :=
  ⟨((s.data.dropWhile Char.isWhitespace).reverse.dropWhile
      Char.isWhitespace).reverse⟩

/-- `{ text: ... }`, one element of a turn's `parts` array. -/
structure TextPart where
  text : String
deriving Repr, DecidableEq

/-- One conversation turn as the client builds it:
`{ role: "user" | "model", parts: [{ text }] }`. -/
structure Turn where
  role : String
  parts : List TextPart
deriving Repr, DecidableEq

/-- `{ role: "user", parts: [{ text: userQuery }] }` from `sendMessage`. -/
def userTurn (userQuery : String) : Turn :=
  { role := "user", parts := [{ text := userQuery }] }

/-- `{ role: "model", parts: [{ text: botText }] }` from `sendMessage`. -/
def modelTurn (botText : String) : Turn :=
  { role := "model", parts := [{ text := botText }] }

/-- One chat bubble as `displayMessage(text, isUser, sources)` renders it. -/
structure DisplayedMsg where
  text : String
  isUser : Bool
  sources : List SourceRaw
deriving Repr, DecidableEq

/-- The client's mutable state: the in-memory `chatHistory` array and the
sequence of rendered chat bubbles. -/
structure ClientState where
  chatHistory : List Turn
  displayed : List DisplayedMsg
deriving Repr, DecidableEq

/-- `let chatHistory = []` and an empty chat window. -/
def initialState : ClientState := ⟨[], []⟩

/-- The terminal outcome of the `fetchWithRetry` call inside
`sendMessage`: a parsed `{text, sources}` payload, or a thrown error after
the retry budget is spent. -/
inductive RoundTrip where
  | success (text : String) (sources : List SourceRaw)
  | failure
deriving Repr, DecidableEq

/-- The fixed fallback bubble text from `sendMessage`'s `catch` block. -/
def FALLBACK_MESSAGE : String :=
  "An error occurred while communicating with the server. Please check if the Node.js server is running (http://localhost:3000)."

/-- The state-relevant result of one `sendMessage()` call: the new client
state, whether a network request was issued, and (when one was) the
serialized `chatHistory` that was POSTed. -/
structure SendOutcome where
  state : ClientState
  requestSent : Bool
  requestBody : Option (List Turn)
deriving Repr, DecidableEq

/-- `window.sendMessage` from script.js, with the round trip's terminal
outcome supplied as a parameter.  `if (!userQuery) return;` guards the
whole body; the user turn is pushed before the fetch; on success the model
turn is pushed and rendered; on failure only the fallback bubble is
rendered (the `finally` block touches only widget enable/disable state,
which carries no information and is not modelled). -/
def sendMessage (st : ClientState) (input : String) (net : RoundTrip) :
    SendOutcome :=
  let userQuery := jsTrim input
  if userQuery = "" then
    ⟨st, false, none⟩
  else
    let displayed1 := st.displayed ++ [⟨userQuery, true, []⟩]
    let history1 := st.chatHistory ++ [userTurn userQuery]
    match net with
    | .success botText sources =>
      ⟨⟨history1 ++ [modelTurn botText],
        displayed1 ++ [⟨botText, false, sources⟩]⟩, true, some history1⟩
    | .failure =>
      ⟨⟨history1, displayed1 ++ [⟨FALLBACK_MESSAGE, false, []⟩]⟩,
        true, some history1⟩

/-- One user submission whose round trip succeeds: the typed query and the
`{text, sources}` the backend returned. -/
structure Submission where
  query : String
  reply : String
  sources : List SourceRaw
deriving Repr, DecidableEq

/-- Run a sequence of submissions that all complete successfully. -/
def runSuccessfulSends (st : ClientState) : List Submission → ClientState
  | [] => st
  | s :: rest =>
    runSuccessfulSends (sendMessage st s.query (.success s.reply s.sources)).state rest

/-- The turns a sequence of successful submissions appends to the history. -/
def successTurns : List Submission → List Turn
  | [] => []
  | s :: rest => userTurn (jsTrim s.query) :: modelTurn s.reply :: successTurns rest

/-- `["user", "model", "user", "model", ...]` with `n` pairs. -/
def altRoles : Nat → List String
  | 0 => []
  | n + 1 => "user" :: "model" :: altRoles n

/-- Whether a role sequence strictly alternates, the next expected role
being `r`. -/
def rolesAlternateFrom (r : String) : List String → Bool
  | [] => true
  | x :: rest =>
    x == r && rolesAlternateFrom (if r = "user" then "model" else "user") rest

/-- Whether a role sequence strictly alternates starting with `"user"`. -/
def rolesAlternate (l : List String) : Bool := rolesAlternateFrom "user" l

end Client

namespace Server

/-- A JavaScript/JSON value, as far as the proxy's validation observes it
(`undefined` stands for JavaScript `undefined`, e.g. a missing field). -/
inductive JValue where
  | undefined
  | null
  | bool (b : Bool)
  | num (n : Int)
  | str (s : String)
  | arr (elems : List JValue)
  | obj (fields : List (String × JValue))
deriving Repr

/-- JavaScript truthiness of a value (`NaN` is not modelled). -/
def truthy : JValue → Bool
  | .undefined => false
  | .null => false
  | .bool b => b
  | .num n => n != 0
  | .str s => s != ""
  | .arr _ => true
  | .obj _ => true

/-- `Array.isArray`. -/
def isArray : JValue → Bool
  | .arr _ => true
  | _ => false

/-- Property access `body["chatHistory"]`: a missing field, or a
non-object receiver, reads as `undefined`. -/
def getField : JValue → String → JValue
  | .obj fields, k =>
    match fields.lookup k with
    | some v => v
    | none => .undefined
  | _, _ => .undefined

/-- Truthiness of an optional string (`undefined` and `""` are falsy). -/
def truthyStr : Option String → Bool
  | some t => t != ""
  | none => false

/-- `attribution.web`: `{ uri?, title? }`, either field possibly absent. -/
structure WebInfo where
  uri : Option String
  title : Option String
deriving Repr, DecidableEq

/-- One grounding attribution; its `web` object may be absent. -/
structure Attribution where
  web : Option WebInfo
deriving Repr, DecidableEq

/-- `candidate.groundingMetadata`: its `groundingAttributions` array may
be absent. -/
structure GroundingMetadata where
  groundingAttributions : Option (List Attribution)
deriving Repr, DecidableEq

/-- One element of `candidate.content.parts`; its `text` may be absent. -/
structure ContentPart where
  text : Option String
deriving Repr, DecidableEq

/-- `candidate.content`; its `parts` array may be absent. -/
structure Content where
  parts : Option (List ContentPart)
deriving Repr, DecidableEq

/-- One candidate of the upstream provider response. -/
structure Candidate where
  content : Option Content
  groundingMetadata : Option GroundingMetadata
deriving Repr, DecidableEq

/-- The upstream provider response; its `candidates` array may be absent. -/
structure GenResponse where
  candidates : Option (List Candidate)
deriving Repr, DecidableEq

/-- The placeholder `botText` is initialised to in server.js. -/
def DEFAULT_TEXT : String :=
  "Sorry, I couldn't generate a response. Please try again."

/-- The invalid-input error body text. -/
def INVALID_HISTORY_ERROR : String := "Invalid chat history provided."

/-- The generic upstream-failure error body text. -/
def UPSTREAM_ERROR : String := "Failed to communicate with the AI service."

/-- The HTTP method the chat route is registered under (`app.post`). -/
def chatRouteMethod : String := "POST"

/-- The path the chat route is registered under. -/
def chatRoutePath : String := "/api/chat"

/-- The JSON body the proxy responds with. -/
inductive ResponseBody where
  | errorBody (error : String)
  | chatBody (text : String) (sources : List SourceRaw)
deriving Repr, DecidableEq

/-- An HTTP response: status code plus JSON body (`res.json(...)` with no
explicit status sends 200). -/
structure HttpResponse where
  status : Nat
  body : ResponseBody
deriving Repr, DecidableEq

/-- `candidate.content?.parts?.[0]?.text`: `none` when any link of the
optional chain is absent. -/
def firstPartText (c : Candidate) : Option String :=
  c.content.bind fun ct => ct.parts.bind fun ps => ps.head?.bind fun p => p.text

/-- The `sources` array built when text is present: map the grounding
attributions to `{ uri: attribution.web?.uri, title: attribution.web?.title }`
and keep only those with both fields truthy; when `groundingMetadata` or
its `groundingAttributions` is absent, `sources` stays `[]`. -/
def extractSources (c : Candidate) : List SourceRaw :=
  match c.groundingMetadata with
  | none => []
  | some gm =>
    match gm.groundingAttributions with
    | none => []
    | some attrs =>
      (attrs.map fun a =>
          SourceRaw.mk (a.web.bind WebInfo.uri) (a.web.bind WebInfo.title)).filter
        fun s => truthyStr s.uri && truthyStr s.title

/-- The `POST /api/chat` handler from server.js, with the upstream
`generateContent` call's result supplied as a parameter (`.error detail`
models a thrown provider error).  `if (!chatHistory || !Array.isArray(chatHistory))`
returns 400 before the upstream call; inside the `try`, `botText` defaults
to the placeholder and `sources` to `[]`, both overridden only when
`candidate && candidate.content?.parts?.[0]?.text` is truthy. -/
def handleChat (body : JValue) (upstream : Except String GenResponse) :
    HttpResponse :=
  let chatHistory := getField body "chatHistory"
  if !truthy chatHistory || !isArray chatHistory then
    ⟨400, .errorBody INVALID_HISTORY_ERROR⟩
  else
    match upstream with
    | .error _ => ⟨500, .errorBody UPSTREAM_ERROR⟩
    | .ok response =>
      match response.candidates.bind List.head? with
      | none => ⟨200, .chatBody DEFAULT_TEXT []⟩
      | some c =>
        match firstPartText c with
        | none => ⟨200, .chatBody DEFAULT_TEXT []⟩
        | some t =>
          if t = "" then ⟨200, .chatBody DEFAULT_TEXT []⟩
          else ⟨200, .chatBody t (extractSources c)⟩

/-- `response.candidates?.[0]`. -/
def firstCandidate (r : GenResponse) : Option Candidate :=
  r.candidates.bind List.head?

/-- The first candidate's first content part's text, when present and
non-empty (JavaScript truthiness): the text the spec calls "present". -/
def presentText (r : GenResponse) : Option String :=
  match (firstCandidate r).bind firstPartText with
  | some t => if t = "" then none else some t
  | none => none

/-- A complete citation as the spec describes it: both fields present and
non-empty. -/
structure Source where
  uri : String
  title : String
deriving Repr, DecidableEq

/-- Modelled from the spec's words, for comparison with `extractSources`:
"map each attribution to `{uri, title}`, and silently drop any attribution
missing either field" — the complete attributions, as total records. -/
def specCompleteSources (attrs : List Attribution) : List Source :=
  attrs.filterMap fun a =>
    match a.web.bind WebInfo.uri, a.web.bind WebInfo.title with
    | some u, some t => if u = "" ∨ t = "" then none else some ⟨u, t⟩
    | _, _ => none

end Server

/-! ## Theorems -/

open Client Server

/-- A failing attempt's `try` block throws some `FetchError`. -/
theorem attemptResult_error_of_isFailure {α : Type} (o : AttemptOutcome α)
    (h : isFailure o = true) : ∃ e, attemptResult o = .error e := by
  cases o <;> simp_all [isFailure, attemptResult]

/-- A successful `sendMessage` appends exactly the user turn then the
model turn, and sends the history including the new user turn. -/
theorem sendMessage_success_state (st : ClientState) (q r : String)
    (s : List SourceRaw) (h : jsTrim q ≠ "") :
    (sendMessage st q (.success r s)).state =
      ⟨st.chatHistory ++ [userTurn (jsTrim q), modelTurn r],
        st.displayed ++ [⟨jsTrim q, true, []⟩, ⟨r, false, s⟩]⟩ ∧
    (sendMessage st q (.success r s)).requestBody =
      some (st.chatHistory ++ [userTurn (jsTrim q)]) := by
  simp [sendMessage, h]

/-- Unfolding `runSuccessfulSends`: it appends `successTurns` to the
starting history. -/
theorem runSuccessfulSends_history (subs : List Submission) :
    ∀ st : ClientState, (∀ s ∈ subs, jsTrim s.query ≠ "") →
      (runSuccessfulSends st subs).chatHistory =
        st.chatHistory ++ successTurns subs := by
  induction subs with
  | nil => intro st _; simp [runSuccessfulSends, successTurns]
  | cons s rest ih =>
    intro st h
    have hs : jsTrim s.query ≠ "" := h s (by simp)
    have hrest : ∀ x ∈ rest, jsTrim x.query ≠ "" := fun x hx => h x (by simp [hx])
    rw [runSuccessfulSends, ih _ hrest,
      (sendMessage_success_state st s.query s.reply s.sources hs).1]
    simp [successTurns]

/-- The roles of the turns appended by successful submissions. -/
theorem successTurns_roles (subs : List Submission) :
    (successTurns subs).map Turn.role = altRoles subs.length := by
  induction subs with
  | nil => rfl
  | cons s rest ih => simp [successTurns, altRoles, userTurn, modelTurn, ih]

/-- Each successful submission appends two turns. -/
theorem successTurns_length (subs : List Submission) :
    (successTurns subs).length = 2 * subs.length := by
  induction subs with
  | nil => rfl
  | cons s rest ih => simp [successTurns, ih]; omega

/-- The canonical user/model pattern strictly alternates. -/
theorem rolesAlternate_altRoles (n : Nat) :
    rolesAlternate (altRoles n) = true := by
  unfold rolesAlternate
  induction n with
  | zero => rfl
  | succ n ih => simpa [altRoles, rolesAlternateFrom] using ih

/-- C1: after any sequence of N user submissions that all complete with a
successful round trip, the history is exactly the user/model turns of
those submissions in order (no turn dropped, reordered or edited), its
length is 2N, its roles strictly alternate starting with "user", and the
history POSTed on each turn is the accumulated turns plus the new user
turn. -/
theorem history_alternation_after_successful_sends
    (subs : List Submission) (h : ∀ s ∈ subs, jsTrim s.query ≠ "") :
    (runSuccessfulSends initialState subs).chatHistory = successTurns subs ∧
    (runSuccessfulSends initialState subs).chatHistory.length = 2 * subs.length ∧
    (runSuccessfulSends initialState subs).chatHistory.map Turn.role =
      altRoles subs.length ∧
    rolesAlternate ((runSuccessfulSends initialState subs).chatHistory.map
      Turn.role) = true ∧
    (∀ (st : ClientState) (q r : String) (s : List SourceRaw), jsTrim q ≠ "" →
      (sendMessage st q (.success r s)).requestBody =
        some (st.chatHistory ++ [userTurn (jsTrim q)])) := by
  have hh : (runSuccessfulSends initialState subs).chatHistory =
      successTurns subs := by
    simpa using runSuccessfulSends_history subs initialState h
  refine ⟨hh, ?_, ?_, ?_, ?_⟩
  · rw [hh, successTurns_length]
  · rw [hh, successTurns_roles]
  · rw [hh, successTurns_roles, rolesAlternate_altRoles]
  · intro st q r s hq
    exact (sendMessage_success_state st q r s hq).2

/-- C1 witness: two concrete successful submissions. -/
theorem history_alternation_after_successful_sends_witness :
    (runSuccessfulSends initialState
        [⟨"hi", "hello!", []⟩, ⟨" plan? ", "sure", []⟩]).chatHistory.length = 2 * 2 :=
  (history_alternation_after_successful_sends
    [⟨"hi", "hello!", []⟩, ⟨" plan? ", "sure", []⟩] (by decide)).2.1

/-- C2: when every attempt fails, `fetchWithRetry` makes exactly 6
attempts (1 initial + 5 retries), waits 2^k seconds before retry k+1
(1, 2, 4, 8, 16 s — 31 s cumulatively, no jitter, no cap), and then
propagates the error of the final attempt. -/
theorem retry_exhaustion_six_attempts {α : Type}
    (oracle : Nat → AttemptOutcome α)
    (h : ∀ k, k ≤ 5 → isFailure (oracle k) = true) :
    (fetchWithRetry oracle 0).attempts = 6 ∧
    (fetchWithRetry oracle 0).delaysMs = [1000, 2000, 4000, 8000, 16000] ∧
    (fetchWithRetry oracle 0).delaysMs.sum = 31000 ∧
    ∃ e, attemptResult (oracle 5) = .error e ∧
      (fetchWithRetry oracle 0).result = .error e := by
  obtain ⟨e0, he0⟩ := attemptResult_error_of_isFailure _ (h 0 (by omega))
  obtain ⟨e1, he1⟩ := attemptResult_error_of_isFailure _ (h 1 (by omega))
  obtain ⟨e2, he2⟩ := attemptResult_error_of_isFailure _ (h 2 (by omega))
  obtain ⟨e3, he3⟩ := attemptResult_error_of_isFailure _ (h 3 (by omega))
  obtain ⟨e4, he4⟩ := attemptResult_error_of_isFailure _ (h 4 (by omega))
  obtain ⟨e5, he5⟩ := attemptResult_error_of_isFailure _ (h 5 (by omega))
  have hfr : fetchWithRetry oracle 0 =
      ⟨6, [1000, 2000, 4000, 8000, 16000], .error e5⟩ := by
    simp [fetchWithRetry, he0, he1, he2, he3, he4, he5, MAX_RETRIES]
  exact ⟨by rw [hfr], by rw [hfr], by rw [hfr]; rfl, e5, he5, by rw [hfr]⟩

/-- C2 witness: an oracle whose every attempt is a transport error. -/
theorem retry_exhaustion_six_attempts_witness :
    (fetchWithRetry (α := Unit) (fun _ => .transportError) 0).attempts = 6 :=
  (retry_exhaustion_six_attempts (fun _ => .transportError) (by decide)).1

/-- C3 counterexample: when attempt 0 returns a success status whose body
fails to parse as JSON and attempt 1 parses fine, the wrapper performs a
retry (2 attempts) and returns the second attempt's payload — the parse
error is not surfaced to the caller. -/
theorem parse_error_not_surfaced_cx :
    (fetchWithRetry (α := Unit)
        (fun k => if k = 0 then .okBadJson else .okJson ()) 0).attempts = 2 ∧
    (fetchWithRetry (α := Unit)
        (fun k => if k = 0 then .okBadJson else .okJson ()) 0).result = .ok () := by
  constructor <;> simp [fetchWithRetry, attemptResult, MAX_RETRIES]

/-- C3 amended: a success-status response whose body fails to parse as
JSON is treated like any other failed attempt: while the attempt counter
is below the maximum the wrapper waits `2^retries` seconds and retries,
and only once the budget is spent is the parse error propagated. -/
theorem parse_error_treated_as_retryable {α : Type}
    (oracle : Nat → AttemptOutcome α) (retries : Nat)
    (h : oracle retries = .okBadJson) :
    (retries < MAX_RETRIES → fetchWithRetry oracle retries =
      ⟨(fetchWithRetry oracle (retries + 1)).attempts + 1,
        2 ^ retries * 1000 :: (fetchWithRetry oracle (retries + 1)).delaysMs,
        (fetchWithRetry oracle (retries + 1)).result⟩) ∧
    (MAX_RETRIES ≤ retries → fetchWithRetry oracle retries =
      ⟨1, [], .error .badJson⟩) := by
  constructor
  · intro h'
    rw [fetchWithRetry, h]
    simp [attemptResult, h']
  · intro h'
    have h'' : ¬ retries < MAX_RETRIES := by omega
    rw [fetchWithRetry, h]
    simp [attemptResult, h'']

/-- C3 witness: a parse failure at attempt 0 leads to a retry. -/
theorem parse_error_treated_as_retryable_witness :
    fetchWithRetry (α := Unit) (fun _ => .okBadJson) 0 =
      ⟨(fetchWithRetry (α := Unit) (fun _ => .okBadJson) 1).attempts + 1,
        2 ^ 0 * 1000 :: (fetchWithRetry (α := Unit) (fun _ => .okBadJson) 1).delaysMs,
        (fetchWithRetry (α := Unit) (fun _ => .okBadJson) 1).result⟩ :=
  (parse_error_treated_as_retryable (fun _ => .okBadJson) 0 rfl).1 (by decide)

/-- C5 counterexample: after a terminal failure the dangling user turn
remains, so the next successful send produces roles
["user", "user", "model"], which do not strictly alternate. -/
theorem failure_breaks_alternation_cx :
    (sendMessage (sendMessage initialState "a" .failure).state "b"
        (.success "reply" [])).state.chatHistory.map Turn.role =
      ["user", "user", "model"] ∧
    rolesAlternate ((sendMessage (sendMessage initialState "a" .failure).state "b"
        (.success "reply" [])).state.chatHistory.map Turn.role) = false := by
  constructor <;> decide

/-- C5 amended: on terminal failure the controller renders the fixed
fallback message, appends no model turn, and leaves the history exactly as
it was after appending the user turn; the next successful send appends its
user and model turns after the dangling user turn (so the roles contain
two consecutive "user" entries rather than strictly alternating). -/
theorem terminal_failure_keeps_dangling_user_turn
    (st : ClientState) (q q2 r : String) (s : List SourceRaw)
    (h : jsTrim q ≠ "") (h2 : jsTrim q2 ≠ "") :
    (sendMessage st q .failure).state.chatHistory =
      st.chatHistory ++ [userTurn (jsTrim q)] ∧
    (sendMessage st q .failure).state.displayed =
      st.displayed ++ [⟨jsTrim q, true, []⟩, ⟨FALLBACK_MESSAGE, false, []⟩] ∧
    (sendMessage st q .failure).requestSent = true ∧
    (sendMessage (sendMessage st q .failure).state q2
        (.success r s)).state.chatHistory =
      st.chatHistory ++ [userTurn (jsTrim q), userTurn (jsTrim q2), modelTurn r] := by
  refine ⟨?_, ?_, ?_, ?_⟩ <;> simp [sendMessage, h, h2]

/-- C5 witness: a concrete failed send followed by a successful one. -/
theorem terminal_failure_keeps_dangling_user_turn_witness :
    (sendMessage (sendMessage initialState "a" .failure).state "b"
        (.success "r" [])).state.chatHistory =
      initialState.chatHistory ++
        [userTurn (jsTrim "a"), userTurn (jsTrim "b"), modelTurn "r"] :=
  (terminal_failure_keeps_dangling_user_turn initialState "a" "b" "r" []
    (by decide) (by decide)).2.2.2

/-- C6: a submission whose trimmed input is empty leaves the client state
untouched and issues no network request. -/
theorem empty_submit_is_noop (st : ClientState) (input : String)
    (net : RoundTrip) (h : jsTrim input = "") :
    sendMessage st input net = ⟨st, false, none⟩ := by
  simp [sendMessage, h]

/-- C6 witness: whitespace-only input is a no-op. -/
theorem empty_submit_is_noop_witness :
    sendMessage initialState "   " RoundTrip.failure =
      ⟨initialState, false, none⟩ :=
  empty_submit_is_noop initialState "   " .failure (by decide)

/-- An array is truthy in JavaScript. -/
theorem truthy_of_isArray (v : JValue) (h : isArray v = true) :
    truthy v = true := by
  cases v <;> simp_all [isArray, truthy]

/-- The code's map-then-filter over grounding attributions returns exactly
the spec's complete attributions (as optional-field records whose fields
are all present). -/
theorem filter_eq_specCompleteSources (attrs : List Attribution) :
    ((attrs.map fun a =>
        SourceRaw.mk (a.web.bind WebInfo.uri) (a.web.bind WebInfo.title)).filter
      fun s => truthyStr s.uri && truthyStr s.title) =
      (specCompleteSources attrs).map fun s =>
        SourceRaw.mk (some s.uri) (some s.title) := by
  induction attrs with
  | nil => rfl
  | cons a rest ih =>
    simp only [List.map_cons, List.filter_cons, specCompleteSources,
      List.filterMap_cons] at *
    cases hu : a.web.bind WebInfo.uri with
    | none => simpa [truthyStr] using ih
    | some u =>
      cases htt : a.web.bind WebInfo.title with
      | none => simpa [truthyStr] using ih
      | some ti =>
        by_cases hue : u = ""
        · simpa [truthyStr, hue] using ih
        · by_cases hte : ti = ""
          · simpa [truthyStr, hue, hte] using ih
          · simpa [truthyStr, hue, hte] using ih

/-- C4 counterexample: the chat route is registered at "/api/chat", not at
"/chat". -/
theorem chat_route_not_slash_chat_cx : chatRoutePath ≠ "/chat" := by decide

/-- C4 amended: the proxy exposes its chat operation at POST /api/chat,
and a request whose body lacks a `chatHistory` field or whose
`chatHistory` is not an array (both make `Array.isArray` false) gets a
400 status with an `{error: string}` body, the same response whatever the
upstream would have answered — the upstream provider is not consulted. -/
theorem invalid_history_rejected_without_upstream
    (body : JValue) (u : Except String GenResponse)
    (h : isArray (getField body "chatHistory") = false) :
    handleChat body u = ⟨400, .errorBody INVALID_HISTORY_ERROR⟩ ∧
    (∀ u', handleChat body u' = handleChat body u) ∧
    chatRoutePath = "/api/chat" ∧ chatRouteMethod = "POST" := by
  have hmain : ∀ v : Except String GenResponse,
      handleChat body v = ⟨400, .errorBody INVALID_HISTORY_ERROR⟩ := by
    intro v; simp [handleChat, h]
  exact ⟨hmain u, fun u' => by rw [hmain u', hmain u], rfl, rfl⟩

/-- C4 witness: a body with no `chatHistory` field is rejected. -/
theorem invalid_history_rejected_without_upstream_witness :
    handleChat (.obj [("note", .str "no history")]) (.ok ⟨none⟩) =
      ⟨400, .errorBody INVALID_HISTORY_ERROR⟩ :=
  (invalid_history_rejected_without_upstream (.obj [("note", .str "no history")])
    (.ok ⟨none⟩) (by decide)).1

/-- C7: on a valid body, the proxy's returned text is the first
candidate's first content part's text when that is present (non-empty),
and the fixed placeholder otherwise; the returned text is never empty. -/
theorem response_text_present_or_placeholder
    (body : JValue) (hb : isArray (getField body "chatHistory") = true)
    (resp : GenResponse) :
    ∃ s, handleChat body (.ok resp) =
        ⟨200, .chatBody ((presentText resp).getD DEFAULT_TEXT) s⟩ ∧
      (presentText resp).getD DEFAULT_TEXT ≠ "" := by
  have htr := truthy_of_isArray _ hb
  cases hc : resp.candidates.bind List.head? with
  | none =>
    refine ⟨[], ?_, ?_⟩
    · simp [handleChat, hb, htr, hc, presentText, firstCandidate]
    · simp only [presentText, firstCandidate, hc, Option.none_bind]
      decide
  | some c =>
    cases ht : firstPartText c with
    | none =>
      refine ⟨[], ?_, ?_⟩
      · simp [handleChat, hb, htr, hc, ht, presentText, firstCandidate]
      · simp only [presentText, firstCandidate, hc, Option.some_bind, ht]
        decide
    | some t =>
      by_cases hte : t = ""
      · subst hte
        refine ⟨[], ?_, ?_⟩
        · simp [handleChat, hb, htr, hc, ht, presentText, firstCandidate]
        · simp only [presentText, firstCandidate, hc, Option.some_bind, ht]
          decide
      · refine ⟨extractSources c, ?_, ?_⟩
        · simp [handleChat, hb, htr, hc, ht, presentText, firstCandidate, hte]
        · simp [presentText, firstCandidate, hc, ht, hte]

/-- C7 witness: a response carrying text "hello". -/
theorem response_text_present_or_placeholder_witness :
    ∃ s, handleChat (.obj [("chatHistory", .arr [])])
        (.ok ⟨some [⟨some ⟨some [⟨some "hello"⟩]⟩, none⟩]⟩) =
        ⟨200, .chatBody ((presentText
          ⟨some [⟨some ⟨some [⟨some "hello"⟩]⟩, none⟩]⟩).getD DEFAULT_TEXT) s⟩ ∧
      (presentText
        ⟨some [⟨some ⟨some [⟨some "hello"⟩]⟩, none⟩]⟩).getD DEFAULT_TEXT ≠ "" :=
  response_text_present_or_placeholder (.obj [("chatHistory", .arr [])])
    (by decide) ⟨some [⟨some ⟨some [⟨some "hello"⟩]⟩, none⟩]⟩

/-- C8 counterexample: an upstream response with grounding metadata whose
attribution is complete, but whose first candidate carries no text: the
proxy returns `sources: []` even though there is a complete attribution,
so the returned sources are not the complete attributions. -/
theorem sources_dropped_without_text_cx :
    handleChat (.obj [("chatHistory", .arr [])])
        (.ok ⟨some [⟨none,
          some ⟨some [⟨some ⟨some "https://example.org", some "Example"⟩⟩]⟩⟩]⟩) =
      ⟨200, .chatBody DEFAULT_TEXT []⟩ ∧
    specCompleteSources [⟨some ⟨some "https://example.org", some "Example"⟩⟩] =
      [⟨"https://example.org", "Example"⟩] := by
  constructor <;> decide

/-- C8 amended: for an upstream response whose first candidate's first
content part's text is present (non-empty), the proxy returns exactly the
complete attributions of the grounding metadata, each mapped to
`{uri, title}` with incomplete ones silently dropped; when the grounding
metadata is absent the sources are `[]` (and never an error). -/
theorem complete_sources_when_text_present
    (body : JValue) (hb : isArray (getField body "chatHistory") = true)
    (resp : GenResponse) (c : Candidate)
    (hc : firstCandidate resp = some c) (t : String)
    (ht : firstPartText c = some t) (hne : t ≠ "") :
    handleChat body (.ok resp) = ⟨200, .chatBody t (extractSources c)⟩ ∧
    (∀ gm attrs, c.groundingMetadata = some gm →
      gm.groundingAttributions = some attrs →
      extractSources c = (specCompleteSources attrs).map fun s =>
        SourceRaw.mk (some s.uri) (some s.title)) ∧
    (c.groundingMetadata = none → extractSources c = []) := by
  have htr := truthy_of_isArray _ hb
  have hc' : resp.candidates.bind List.head? = some c := hc
  refine ⟨by simp [handleChat, hb, htr, hc', ht, hne], ?_, ?_⟩
  · intro gm attrs hgm hattrs
    simp only [extractSources, hgm, hattrs]
    exact filter_eq_specCompleteSources attrs
  · intro hgm
    simp only [extractSources, hgm]

/-- C8 witness: text present, one complete and one title-less
attribution: only the complete one is returned. -/
theorem complete_sources_when_text_present_witness :
    handleChat (.obj [("chatHistory", .arr [])])
        (.ok ⟨some [⟨some ⟨some [⟨some "answer"⟩]⟩,
          some ⟨some [⟨some ⟨some "https://a", some "A"⟩⟩,
            ⟨some ⟨some "https://b", none⟩⟩]⟩⟩]⟩) =
      ⟨200, .chatBody "answer"
        (extractSources ⟨some ⟨some [⟨some "answer"⟩]⟩,
          some ⟨some [⟨some ⟨some "https://a", some "A"⟩⟩,
            ⟨some ⟨some "https://b", none⟩⟩]⟩⟩)⟩ :=
  (complete_sources_when_text_present (.obj [("chatHistory", .arr [])])
    (by decide)
    ⟨some [⟨some ⟨some [⟨some "answer"⟩]⟩,
      some ⟨some [⟨some ⟨some "https://a", some "A"⟩⟩,
        ⟨some ⟨some "https://b", none⟩⟩]⟩⟩]⟩
    ⟨some ⟨some [⟨some "answer"⟩]⟩,
      some ⟨some [⟨some ⟨some "https://a", some "A"⟩⟩,
        ⟨some ⟨some "https://b", none⟩⟩]⟩⟩
    rfl "answer" rfl (by decide)).1

/-- C9: on a valid body, a thrown upstream call yields a 500 status with
the fixed generic error body, independent of the upstream error's detail,
and that body differs from the invalid-input response. -/
theorem upstream_failure_generic_500
    (body : JValue) (hb : isArray (getField body "chatHistory") = true)
    (e : String) :
    handleChat body (.error e) = ⟨500, .errorBody UPSTREAM_ERROR⟩ ∧
    (∀ e', handleChat body (.error e') = handleChat body (.error e)) ∧
    UPSTREAM_ERROR ≠ INVALID_HISTORY_ERROR := by
  have htr := truthy_of_isArray _ hb
  have hmain : ∀ e' : String,
      handleChat body (.error e') = ⟨500, .errorBody UPSTREAM_ERROR⟩ := by
    intro e'; simp [handleChat, hb, htr]
  exact ⟨hmain e, fun e' => by rw [hmain e', hmain e], by decide⟩

/-- C9 witness: a concrete upstream failure. -/
theorem upstream_failure_generic_500_witness :
    handleChat (.obj [("chatHistory", .arr [])]) (.error "quota exceeded") =
      ⟨500, .errorBody UPSTREAM_ERROR⟩ :=
  (upstream_failure_generic_500 (.obj [("chatHistory", .arr [])])
    (by decide) "quota exceeded").1

/-- C10: on a valid body, an upstream response without a present
(non-empty) first-candidate text gets HTTP 200 carrying the placeholder
text and `sources: []` — grounding metadata notwithstanding — and every
ok-upstream response is answered with status 200, so the placeholder case
is indistinguishable from a normal success by status code. -/
theorem placeholder_success_no_sources
    (body : JValue) (hb : isArray (getField body "chatHistory") = true)
    (resp : GenResponse) (h : presentText resp = none) :
    handleChat body (.ok resp) = ⟨200, .chatBody DEFAULT_TEXT []⟩ ∧
    (∀ resp' : GenResponse, (handleChat body (.ok resp')).status = 200) := by
  have htr := truthy_of_isArray _ hb
  constructor
  · cases hc : resp.candidates.bind List.head? with
    | none => simp [handleChat, hb, htr, hc]
    | some c =>
      cases ht : firstPartText c with
      | none => simp [handleChat, hb, htr, hc, ht]
      | some t =>
        have hte : t = "" := by
          by_contra hne
          simp [presentText, firstCandidate, hc, ht, hne] at h
        subst hte
        simp [handleChat, hb, htr, hc, ht]
  · intro resp'
    cases hc : resp'.candidates.bind List.head? with
    | none => simp [handleChat, hb, htr, hc]
    | some c =>
      cases ht : firstPartText c with
      | none => simp [handleChat, hb, htr, hc, ht]
      | some t =>
        by_cases hte : t = "" <;> simp [handleChat, hb, htr, hc, ht, hte]

/-- C10 witness: no text but complete grounding attributions: the proxy
still answers 200 with the placeholder and no sources. -/
theorem placeholder_success_no_sources_witness :
    handleChat (.obj [("chatHistory", .arr [])])
        (.ok ⟨some [⟨none,
          some ⟨some [⟨some ⟨some "https://nutri.example", some "Nutri"⟩⟩]⟩⟩]⟩) =
      ⟨200, .chatBody DEFAULT_TEXT []⟩ :=
  (placeholder_success_no_sources (.obj [("chatHistory", .arr [])])
    (by decide)
    ⟨some [⟨none, some ⟨some [⟨some ⟨some "https://nutri.example", some "Nutri"⟩⟩]⟩⟩]⟩
    (by decide)).1

end NutriBot
